import Mathlib

/-!
Verification development for the ibarrow streaming bridge.

The repository ships the Python-facing tests, examples and packaging
scripts; the core bridge (ConnectionManager, DsnResolver, TypeMapper,
BatchFetcher, ColumnEncoder, Pipeline, OutputAdapter, ErrorTranslator)
is a compiled native extension whose sources are not in the tree, so the
core components below are modelled from the specification document,
faithful to its words, and checked against the properties the spec and
the Python tests state.
-/

namespace Ibarrow

/-- Modelled from the spec: a relational cell value fetched from the
cursor; a `none`-like null is represented explicitly so validity bitmaps
can be derived (spec section 3, Column). -/
inductive Value where
  | intVal (i : Int)
  | floatVal (num den : Int)
  | textVal (s : List Char)
  | binaryVal (b : List Nat)
  | nullVal
deriving DecidableEq, Repr

/-- Modelled from the spec: a row is an ordered tuple of cell values. -/
abbrev Row := List Value

/-- Modelled from the spec: relational source type categories the
TypeMapper translates (spec section 4.3; the native type-mapping table is
in the absent compiled core). -/
inductive SqlType where
  | smallint
  | integer
  | bigint
  | realType
  | doubleType
  | decimalType (p s : Nat)
  | varchar (n : Nat)
  | blob
  | dateType
  | timeType
  | timestampType
  | unknownType (code : Int)
deriving DecidableEq, Repr

/-- Modelled from the spec: columnar logical types of the schema
descriptor (spec section 4.3). -/
inductive LogicalType where
  | int16
  | int32
  | int64
  | float32
  | float64
  | decimal128 (p s : Nat)
  | utf8
  | binary
  | date32
  | time64micro
  | timestampMicro
deriving DecidableEq, Repr

/-- Modelled from the spec: relational column metadata read from the
cursor (spec sections 3 and 4.3). -/
structure ColumnMeta where
  name : List Char
  sqlType : SqlType
  nullable : Bool
  declaredSize : Nat
deriving DecidableEq, Repr

/-- Modelled from the spec: one field of a SchemaDescriptor, the tuple
`(name, logical_type, nullable, declared_size)` (spec section 3). -/
structure SchemaField where
  name : List Char
  logicalType : LogicalType
  nullable : Bool
  declaredSize : Nat
deriving DecidableEq, Repr

/-- Modelled from the spec: SchemaDescriptor, an ordered sequence of
fields derived once per query from cursor metadata (spec section 3). -/
abbrev SchemaDescriptor := List SchemaField

/-- Modelled from the spec: TypeMapper's fixed mapping table from
relational type categories to columnar logical types; unknown source
types have no mapping (spec section 4.3). -/
def mapSqlType : SqlType → Option LogicalType
  | .smallint => some .int16
  | .integer => some .int32
  | .bigint => some .int64
  | .realType => some .float32
  | .doubleType => some .float64
  | .decimalType p s => some (.decimal128 p s)
  | .varchar _ => some .utf8
  | .blob => some .binary
  | .dateType => some .date32
  | .timeType => some .time64micro
  | .timestampType => some .timestampMicro
  | .unknownType _ => none

/-- Modelled from the spec: the exposed error taxonomy kinds
(spec section 7). -/
inductive ErrorKind where
  | connectionError
  | sqlError
  | arrowError
  | queryError
deriving DecidableEq, Repr

/-- Modelled from the spec: TypeMapper.derive_schema; maps every column
of the cursor metadata through the fixed table, failing the whole query
with an ArrowError when a source type is unsupported, and copying
nullability verbatim (spec section 4.3). -/
def deriveSchema : List ColumnMeta → Except ErrorKind SchemaDescriptor
  | [] => .ok []
  | m :: ms =>
    match mapSqlType m.sqlType with
    | none => .error .arrowError
    | some lt =>
      match deriveSchema ms with
      | .error e => .error e
      | .ok rest => .ok (⟨m.name, lt, m.nullable, m.declaredSize⟩ :: rest)

/-- Modelled from the spec: BatchFetcher's grouping of the result cursor
into fixed-size row groups; pulls exactly `batchSize` rows unless fewer
remain, in which case the remainder forms the final group
(spec section 4.4). -/
def chunkRows (batchSize : Nat) : List Row → List (List Row)
  | [] => []
  | r :: rs =>
    (r :: rs.take (batchSize - 1)) :: chunkRows batchSize (rs.drop (batchSize - 1))
termination_by rows => rows.length
decreasing_by
  simp only [List.length_cons]
  exact Nat.lt_succ_of_le (List.length_drop _ _ ▸ Nat.sub_le _ _)

/-- Modelled from the spec: a Batch, an ordered group of rows stamped
with the single SchemaDescriptor of its query (spec section 3). -/
structure Batch where
  schema : SchemaDescriptor
  rows : List Row
deriving DecidableEq, Repr

/-- Modelled from the spec: the enumerated isolation levels
(spec section 3). -/
inductive IsolationLevel where
  | readUncommitted
  | readCommitted
  | repeatableRead
  | serializable
deriving DecidableEq, Repr

/-- Modelled from the spec: the immutable QueryConfig record
(spec section 3); numeric fields are Python integers, hence Int. -/
structure QueryConfig where
  batchSize : Int
  readOnly : Bool
  connectionTimeout : Int
  queryTimeout : Int
  maxTextSize : Int
  maxBinarySize : Int
  isolationLevel : IsolationLevel
deriving DecidableEq, Repr

/-- Modelled from the spec: validated construction of a QueryConfig;
construction fails fast whenever a supplied value violates its range
(`batch_size > 0`, timeouts > 0, size limits > 0; spec sections 3, 6). -/
def QueryConfig.make (batchSize : Int) (readOnly : Bool)
    (connectionTimeout queryTimeout maxTextSize maxBinarySize : Int)
    (isolationLevel : IsolationLevel) : Except ErrorKind QueryConfig :=
  if batchSize ≤ 0 then .error .connectionError
  else if connectionTimeout ≤ 0 then .error .connectionError
  else if queryTimeout ≤ 0 then .error .connectionError
  else if maxTextSize ≤ 0 then .error .connectionError
  else if maxBinarySize ≤ 0 then .error .connectionError
  else .ok ⟨batchSize, readOnly, connectionTimeout, queryTimeout,
            maxTextSize, maxBinarySize, isolationLevel⟩

/-- Modelled from the spec: the documented default for `batch_size`. -/
def defaultBatchSize : Int := 1000

/-- Modelled from the spec: the documented default for `read_only`. -/
def defaultReadOnly : Bool := false

/-- Modelled from the spec: the documented default for
`connection_timeout`, seconds. -/
def defaultConnectionTimeout : Int := 30

/-- Modelled from the spec: the documented default for `query_timeout`,
seconds. -/
def defaultQueryTimeout : Int := 60

/-- Modelled from the spec: the documented default for `max_text_size`,
bytes. -/
def defaultMaxTextSize : Int := 65536

/-- Modelled from the spec: the documented default for
`max_binary_size`, bytes. -/
def defaultMaxBinarySize : Int := 65536

/-- Modelled from the spec: the documented default for
`isolation_level`. -/
def defaultIsolationLevel : IsolationLevel := .readCommitted

/-- Modelled from the spec: keyword construction of a QueryConfig from
any subset of its fields; an omitted field takes its documented default
(spec section 3; exercised by test_query_config_creation and
test_query_with_config). -/
def QueryConfig.fromKeywords (batchSize : Option Int) (readOnly : Option Bool)
    (connectionTimeout queryTimeout maxTextSize maxBinarySize : Option Int)
    (isolationLevel : Option IsolationLevel) : Except ErrorKind QueryConfig :=
  QueryConfig.make (batchSize.getD defaultBatchSize)
    (readOnly.getD defaultReadOnly)
    (connectionTimeout.getD defaultConnectionTimeout)
    (queryTimeout.getD defaultQueryTimeout)
    (maxTextSize.getD defaultMaxTextSize)
    (maxBinarySize.getD defaultMaxBinarySize)
    (isolationLevel.getD defaultIsolationLevel)

/-- Modelled from the spec: the character that heuristically identifies
a file-based database path inside a DSN (spec section 4.2; the
long_dsn_name_example shows both slash styles). -/
def isPathSeparator (c : Char) : Bool := c = '/' || c = '\\'

/-- Modelled from the spec: the driver's fixed named-source-length
limit the resolver compares against (spec section 4.2). -/
def maxNamedSourceLength : Nat := 32

/-- Modelled from the spec: the explicit database-file keyword prelude
used when rewriting a file path (the examples name the DATABASE
parameter). -/
def databaseKeyword : List Char := "DATABASE=".toList

/-- Modelled from the spec: the explicit data-source-name keyword
prelude used when rewriting an over-long named source (the examples
name the DSN parameter). -/
def dsnKeyword : List Char := "DSN=".toList

/-- Modelled from the spec: DsnResolver.resolve (spec section 4.2). A
raw keyword connection string (one already containing a keyword
assignment) is accepted as-is; an identifier containing a path
separator is rewritten with the explicit database-file keyword; an
identifier longer than the driver's named-source limit is rewritten
with the explicit data-source-name keyword; otherwise the identifier is
returned unchanged. Pure and deterministic by construction (a total
Lean function, no effects). -/
def resolve (raw : List Char) : List Char :=
  if '=' ∈ raw then raw
  else if raw.any isPathSeparator then databaseKeyword ++ raw ++ [';']
  else if maxNamedSourceLength < raw.length then dsnKeyword ++ raw ++ [';']
  else raw

/-- Modelled from the spec: the native failure causes the
ErrorTranslator receives from the driver (spec sections 4.1, 7). -/
inductive NativeFailure where
  | dsnResolutionFailure
  | authenticationFailure
  | networkTransportFailure
  | connectTimeout
  | statementSyntaxFailure
  | executionFailure
  | cursorFailure
  | unsupportedSourceType
  | oversizeTruncation
  | malformedValueDecode
  | queryTimeoutExceeded
deriving DecidableEq, Repr

/-- Modelled from the spec: ErrorTranslator; classifies every native
failure into exactly one taxonomy kind before it crosses the boundary —
totality of this function is the "never lets an unclassified native
error escape" guarantee (spec sections 4.8, 7). -/
def classifyFailure : NativeFailure → ErrorKind
  | .dsnResolutionFailure => .connectionError
  | .authenticationFailure => .connectionError
  | .networkTransportFailure => .connectionError
  | .connectTimeout => .connectionError
  | .statementSyntaxFailure => .sqlError
  | .executionFailure => .sqlError
  | .cursorFailure => .sqlError
  | .unsupportedSourceType => .arrowError
  | .oversizeTruncation => .arrowError
  | .malformedValueDecode => .arrowError
  | .queryTimeoutExceeded => .queryError

/-- Modelled from the spec: the Connection lifecycle states
(spec section 3). -/
inductive ConnState where
  | created
  | connected
  | querying
  | closed
deriving DecidableEq, Repr

/-- Modelled from the spec: a Connection holding its resolved DSN,
credentials, config and lifecycle state; the native handle is released
exactly when the state reaches `closed` (spec sections 3, 4.1). -/
structure Connection where
  dsn : List Char
  user : List Char
  password : List Char
  config : QueryConfig
  state : ConnState
deriving DecidableEq, Repr

/-- Modelled from the spec: `connect`; resolves the DSN, opens the
native handle, and surfaces any native failure (resolution, auth,
transport, timeout) through the ErrorTranslator (spec sections 4.1, 6).
The nondeterministic driver outcome is passed in explicitly: `none`
means the open succeeded, `some f` that the driver reported failure
`f`. -/
def connect (dsn user password : List Char) (config : QueryConfig)
    (driverOutcome : Option NativeFailure) : Except ErrorKind Connection :=
  match driverOutcome with
  | some f => .error (classifyFailure f)
  | none => .ok ⟨resolve dsn, user, password, config, .connected⟩

/-- Modelled from the spec: `Connection.close`; idempotent, never
raises (it is total), and releases the native handle exactly once — the
returned count is the number of native releases performed by this call
(spec sections 4.1, 6, 7). -/
def close (c : Connection) : Connection × Nat :=
  match c.state with
  | .closed => (c, 0)
  | _ => ({ c with state := .closed }, 1)

/-- Modelled from the spec: calling `close` repeatedly, accumulating
the total number of native handle releases across the calls. -/
def closeTimes : Connection → Nat → Connection × Nat
  | c, 0 => (c, 0)
  | c, n + 1 =>
    let step := close c
    let rest := closeTimes step.1 n
    (rest.1, step.2 + rest.2)

/-- Modelled from the spec: running one query on a connection; a failed
query surfaces its classified error but always leaves the Connection in
a valid, closable (non-closed) state (spec sections 4.4, 7). `outcome`
is the driver's report for this query. -/
def runQueryOn (c : Connection) (outcome : Option NativeFailure) :
    Connection × Option ErrorKind :=
  match c.state with
  | .closed => (c, some .connectionError)
  | _ =>
    match outcome with
    | none => ({ c with state := .connected }, none)
    | some f => ({ c with state := .connected }, some (classifyFailure f))

/-- Modelled from the spec: a full query run; the TypeMapper derives
the SchemaDescriptor once, before the first batch, and every batch the
BatchFetcher/ColumnEncoder pipeline produces is stamped with that one
descriptor, in fetch order (spec sections 2, 3, 4.3-4.6). -/
def produceBatches (config : QueryConfig) (meta : List ColumnMeta)
    (rows : List Row) : Except ErrorKind (List Batch) :=
  match deriveSchema meta with
  | .error e => .error e
  | .ok schema => .ok ((chunkRows config.batchSize.toNat rows).map (⟨schema, ·⟩))

/-- Modelled from the spec: one event of the two-stage pipeline — the
fetch stage moving the next row group into the bounded queue, or the
encode stage taking one group out of the queue, or the encode stage
delivering its finished batch to the OutputAdapter (spec sections 4.6
and 5). -/
inductive PipeEvent where
  | fetch
  | encode
  | deliver
deriving DecidableEq, Repr

/-- Modelled from the spec: the state of the Pipeline during one
streamed query: the row groups not yet fetched from the cursor, the
bounded queue between the stages, the group currently held by the
encode stage, and the count of rows already delivered to the caller
(spec sections 4.6, 5). -/
structure PipeState where
  pendingGroups : List (List Row)
  queue : List (List Row)
  encoding : Option (List Row)
  deliveredRows : Nat
deriving DecidableEq, Repr

/-- Modelled from the spec: the Pipeline's step function; the fetch
stage blocks (the event is a no-op) when the queue is full, the encode
stage blocks when the queue is empty or its hands are full — this is
the backpressure of the bounded queue (spec sections 4.6, 5). -/
def pipeStep (queueDepth : Nat) (s : PipeState) : PipeEvent → PipeState
  | .fetch =>
    match s.pendingGroups with
    | [] => s
    | g :: rest =>
      if s.queue.length < queueDepth then
        { s with pendingGroups := rest, queue := s.queue ++ [g] }
      else s
  | .encode =>
    match s.queue, s.encoding with
    | g :: q, none => { s with queue := q, encoding := some g }
    | _, _ => s
  | .deliver =>
    match s.encoding with
    | some g => { s with encoding := none,
                         deliveredRows := s.deliveredRows + g.length }
    | none => s

/-- Modelled from the spec: running the Pipeline through a sequence of
events from a state. -/
def pipeRun (queueDepth : Nat) (s : PipeState) : List PipeEvent → PipeState
  | [] => s
  | e :: es => pipeRun queueDepth (pipeStep queueDepth s e) es

/-- Modelled from the spec: the initial Pipeline state of a streamed
query — the BatchFetcher's row groups all still at the cursor, nothing
buffered yet (spec sections 4.4, 4.6). -/
def pipeInit (batchSize : Nat) (rows : List Row) : PipeState :=
  ⟨chunkRows batchSize rows, [], none, 0⟩

/-- Modelled from the spec: the number of rows the Pipeline itself
holds in memory — the groups sitting in the bounded queue plus the
group the encode stage is working on; rows still at the cursor and rows
already delivered to the caller are not held by the pipeline
(spec section 4.6). -/
def liveRows (s : PipeState) : Nat :=
  (s.queue.map List.length).sum + (match s.encoding with
    | some g => g.length
    | none => 0)

/-- Invariant of the Pipeline: every row group anywhere in the
pipeline has at most `B` rows and the bounded queue never exceeds its
depth (spec sections 4.4, 4.6). -/
def pipeInvariant (B depth : Nat) (s : PipeState) : Prop :=
  (∀ g ∈ s.pendingGroups, g.length ≤ B) ∧
  (∀ g ∈ s.queue, g.length ≤ B) ∧
  (∀ g, s.encoding = some g → g.length ≤ B) ∧
  s.queue.length ≤ depth

/-- Modelled from the spec: an Arrow C Data Interface capsule pair —
a schema handle and an array handle carrying the exported result
(spec section 4.7, zero-copy export). -/
structure CapsulePair where
  schemaHandle : SchemaDescriptor
  arrayHandle : List Row
deriving DecidableEq, Repr

/-- Modelled from the spec: a host dataframe built by importing the
exported result through the C Data Interface (spec section 4.7,
host-dataframe handoff). -/
structure DataFrame where
  schema : SchemaDescriptor
  rows : List Row
deriving DecidableEq, Repr

/-- Modelled from the spec: what a call to query_arrow_c_data hands
back to Python — either the capsule pair or a host dataframe
(test_local.py lines 124-138, basic_usage.py arrow_c_data_example). -/
inductive CDataResult where
  | capsules (pair : CapsulePair)
  | dataframe (df : DataFrame)
deriving DecidableEq, Repr

/-- Modelled from the spec: the zero-copy export of a concatenated
result as a schema capsule and an array capsule (spec section 4.7). -/
def exportCapsules (schema : SchemaDescriptor) (rows : List Row) :
    CapsulePair :=
  ⟨schema, rows⟩

/-- Modelled from the spec: importing a capsule pair into the host
dataframe representation (spec section 4.7; basic_usage.py shows this
step done through pyarrow). -/
def importDataFrame (pair : CapsulePair) : DataFrame :=
  ⟨pair.schemaHandle, pair.arrayHandle⟩

/-- Modelled from the spec: Connection.query_arrow_c_data with its
optional `return_dataframe` keyword; `none` models an omitted keyword
(tests test_query_arrow_c_data_invalid_connection and
test_query_arrow_c_data_with_dataframe_invalid_connection,
test_local.py lines 124-138). -/
def queryArrowCData (schema : SchemaDescriptor) (rows : List Row)
    (returnDataframe : Option Bool) : CDataResult :=
  if returnDataframe.getD false then
    .dataframe (importDataFrame (exportCapsules schema rows))
  else
    .capsules (exportCapsules schema rows)

/-- Modelled from the spec: the exception classes the compiled module
exposes as attributes at the Python boundary; the module binary is not
in the tree, so the attribute list is taken from the tests and examples
that enumerate it (tests/test_ibarrow.py test_exceptions_available,
docs/examples/basic_usage.py error_handling_example). -/
def exposedExceptionNames : List (List Char) :=
  ["PyConnectionError".toList, "PySQLError".toList, "PyArrowError".toList]

/-- Modelled from the spec: the Python exception class name that would
correspond to each taxonomy kind at the boundary (spec section 7
taxonomy, with the Py prefix the module uses). -/
def pythonExceptionName : ErrorKind → List Char
  | .connectionError => "PyConnectionError".toList
  | .sqlError => "PySQLError".toList
  | .arrowError => "PyArrowError".toList
  | .queryError => "PyQueryError".toList

/-- Sample configuration used to instantiate the general theorems on
the spec's concrete scenario (spec section 8, batch_size = 2). -/
def sampleConfig : QueryConfig := ⟨2, true, 30, 60, 100, 100, .readCommitted⟩

/-- Sample cursor metadata: two non-nullable integer columns
(spec section 8 scenario). -/
def sampleMeta : List ColumnMeta :=
  [⟨"col1".toList, .integer, false, 4⟩, ⟨"col2".toList, .integer, false, 4⟩]

/-- The SchemaDescriptor the TypeMapper derives from `sampleMeta`. -/
def sampleSchema : SchemaDescriptor :=
  [⟨"col1".toList, .int32, false, 4⟩, ⟨"col2".toList, .int32, false, 4⟩]

/-- Sample five-row result set `[(1,10),(2,20),(3,30),(4,40),(5,50)]`
(spec section 8 scenario). -/
def sampleRows : List Row :=
  [[.intVal 1, .intVal 10], [.intVal 2, .intVal 20], [.intVal 3, .intVal 30],
   [.intVal 4, .intVal 40], [.intVal 5, .intVal 50]]

/-- The batches the pipeline produces for the sample scenario. -/
def sampleBatches : List Batch :=
  [⟨sampleSchema, [[.intVal 1, .intVal 10], [.intVal 2, .intVal 20]]⟩,
   ⟨sampleSchema, [[.intVal 3, .intVal 30], [.intVal 4, .intVal 40]]⟩,
   ⟨sampleSchema, [[.intVal 5, .intVal 50]]⟩]

/-- Sample connected Connection used to instantiate lifecycle
theorems. -/
def sampleConnection : Connection :=
  ⟨"invalid_dsn".toList, "invalid_user".toList, "invalid_password".toList,
   sampleConfig, .connected⟩

/-- Sample QueryConfig built from the keyword subset exercised by
test_query_with_config: batch_size 500, read_only true,
connection_timeout 15, max_text_size 16384, the rest defaulted. -/
def sampleKwConfig : QueryConfig := ⟨500, true, 15, 60, 16384, 65536, .readCommitted⟩

theorem chunkRows_length_sum (b : Nat) (rows : List Row) :
    ((chunkRows b rows).map List.length).sum = rows.length := by
  induction rows using chunkRows.induct b with
  | case1 => simp [chunkRows]
  | case2 r rs ih =>
    rw [chunkRows]
    simp only [List.map_cons, List.sum_cons, List.length_cons, ih]
    simp [List.length_take, List.length_drop]
    omega

theorem chunkRows_eq_nil (b : Nat) (rows : List Row) :
    chunkRows b rows = [] ↔ rows = [] := by
  cases rows with
  | nil => simp [chunkRows]
  | cons r rs => rw [chunkRows]; simp

theorem chunkRows_dropLast_length (b : Nat) (hb : 0 < b) (rows : List Row) :
    ∀ g ∈ (chunkRows b rows).dropLast, g.length = b := by
  induction rows using chunkRows.induct b with
  | case1 => simp [chunkRows]
  | case2 r rs ih =>
    rw [chunkRows]
    cases h : chunkRows b (rs.drop (b - 1)) with
    | nil => simp
    | cons y ys =>
      rw [← h]
      intro g hg
      rw [List.dropLast_cons_of_ne_nil (by rw [h]; simp)] at hg
      rcases List.mem_cons.mp hg with hgf | hgr
      · subst hgf
        have hne : rs.drop (b - 1) ≠ [] := by
          intro hnil
          rw [hnil] at h
          simp [chunkRows] at h
        have hlen : b - 1 ≤ rs.length := by
          by_contra hlt
          push_neg at hlt
          exact hne (List.drop_eq_nil_of_le (Nat.le_of_lt hlt))
        simp [List.length_take]
        omega
      · exact ih g hgr

theorem chunkRows_length_le (b : Nat) (hb : 0 < b) (rows : List Row) :
    ∀ g ∈ chunkRows b rows, g.length ≤ b := by
  induction rows using chunkRows.induct b with
  | case1 => simp [chunkRows]
  | case2 r rs ih =>
    rw [chunkRows]
    intro g hg
    rcases List.mem_cons.mp hg with hgf | hgr
    · subst hgf
      simp [List.length_take]
      omega
    · exact ih g hgr

/-- C1: For every batch_size > 0 and every result set of N rows, the
sequence of batches produced by a query partitions the rows exactly:
the row counts of all batches sum to N, and every batch except possibly
the last has row count exactly batch_size. -/
theorem batches_partition_rows (config : QueryConfig) (meta : List ColumnMeta)
    (rows : List Row) (batches : List Batch)
    (hb : 0 < config.batchSize)
    (h : produceBatches config meta rows = .ok batches) :
    (batches.map (fun bt => bt.rows.length)).sum = rows.length ∧
    ∀ bt ∈ batches.dropLast, bt.rows.length = config.batchSize.toNat := by
  unfold produceBatches at h
  cases hd : deriveSchema meta with
  | error e => rw [hd] at h; exact absurd h (by simp)
  | ok schema =>
    rw [hd] at h
    simp only [Except.ok.injEq] at h
    subst h
    have hbn : 0 < config.batchSize.toNat := by omega
    constructor
    · rw [List.map_map]
      exact chunkRows_length_sum config.batchSize.toNat rows
    · intro bt hbt
      rw [← List.map_dropLast] at hbt
      rcases List.mem_map.mp hbt with ⟨g, hg, hgb⟩
      rw [← hgb]
      exact chunkRows_dropLast_length config.batchSize.toNat hbn rows g hg

/-- Witness for C1 at the spec's concrete scenario: batch_size 2, five
rows, three batches of sizes 2, 2, 1. -/
theorem batches_partition_rows_witness :
    (sampleBatches.map (fun bt => bt.rows.length)).sum = sampleRows.length ∧
    ∀ bt ∈ sampleBatches.dropLast, bt.rows.length = sampleConfig.batchSize.toNat :=
  batches_partition_rows sampleConfig sampleMeta sampleRows sampleBatches
    (by decide)
    (by simp [produceBatches, deriveSchema, mapSqlType, chunkRows,
              sampleConfig, sampleMeta, sampleRows, sampleBatches, sampleSchema])

/-- C2: For every query, the SchemaDescriptor is derived once from the
cursor metadata before the first batch, and every batch produced for
that query carries a SchemaDescriptor identical to that initial one. -/
theorem batches_schema_consistent (config : QueryConfig)
    (meta : List ColumnMeta) (rows : List Row) (schema : SchemaDescriptor)
    (batches : List Batch)
    (hs : deriveSchema meta = .ok schema)
    (h : produceBatches config meta rows = .ok batches) :
    ∀ bt ∈ batches, bt.schema = schema := by
  unfold produceBatches at h
  rw [hs] at h
  simp only [Except.ok.injEq] at h
  subst h
  intro bt hbt
  rcases List.mem_map.mp hbt with ⟨g, _, hgb⟩
  rw [← hgb]

/-- Witness for C2 at the spec's concrete scenario: all three batches
carry the schema derived from the two integer columns. -/
theorem batches_schema_consistent_witness :
    sampleBatches.map Batch.schema = [sampleSchema, sampleSchema, sampleSchema] := by
  have hall := batches_schema_consistent sampleConfig sampleMeta sampleRows
    sampleSchema sampleBatches
    (by simp [deriveSchema, mapSqlType, sampleMeta, sampleSchema])
    (by simp [produceBatches, deriveSchema, mapSqlType, chunkRows,
              sampleConfig, sampleMeta, sampleRows, sampleBatches, sampleSchema])
  simp only [sampleBatches] at hall ⊢
  simp only [List.mem_cons, List.not_mem_nil, or_false, forall_eq_or_imp,
             forall_eq] at hall
  obtain ⟨ha, hb, hc⟩ := hall
  simp [ha, hb, hc]

/-- C3: For every call to connect with a DSN that fails resolution,
credentials that fail authentication, or a connection that times out,
the failure is surfaced to the caller as a ConnectionError, and — the
ErrorTranslator being total — every native failure crosses the boundary
as a classified taxonomy kind, never as an unclassified error. -/
theorem connect_failures_are_connection_errors (dsn user password : List Char)
    (config : QueryConfig) (f : NativeFailure)
    (hf : f = .dsnResolutionFailure ∨ f = .authenticationFailure ∨
          f = .connectTimeout) :
    connect dsn user password config (some f) = .error .connectionError ∧
    ∀ g : NativeFailure,
      connect dsn user password config (some g) = .error (classifyFailure g) := by
  constructor
  · rcases hf with h | h | h <;> subst h <;> rfl
  · intro g
    rfl

/-- Witness for C3: a timed-out open on concrete credentials surfaces a
ConnectionError. -/
theorem connect_failures_are_connection_errors_witness :
    connect "invalid_dsn".toList "invalid_user".toList
      "invalid_password".toList sampleConfig (some .connectTimeout) =
      .error .connectionError :=
  (connect_failures_are_connection_errors "invalid_dsn".toList
    "invalid_user".toList "invalid_password".toList sampleConfig
    .connectTimeout (by simp)).1

theorem closeTimes_of_closed (c : Connection) (n : Nat)
    (hc : c.state = .closed) : closeTimes c n = (c, 0) := by
  induction n with
  | zero => rfl
  | succ m ih =>
    have hclose : close c = (c, 0) := by
      unfold close
      rw [hc]
    rw [closeTimes, hclose]
    simp [ih]

theorem closeTimes_releases_once (c : Connection) (n : Nat)
    (hn : 0 < n) (hc : c.state ≠ .closed) : (closeTimes c n).2 = 1 := by
  cases n with
  | zero => exact absurd hn (by simp)
  | succ m =>
    have hclose : close c = ({ c with state := .closed }, 1) := by
      unfold close
      cases hs : c.state with
      | closed => exact absurd hs hc
      | created => rfl
      | connected => rfl
      | querying => rfl
    rw [closeTimes, hclose]
    simp [closeTimes_of_closed { c with state := .closed } m rfl]

theorem runQueryOn_leaves_closable (c : Connection)
    (outcome : Option NativeFailure) (hc : c.state ≠ .closed) :
    (runQueryOn c outcome).1.state ≠ .closed := by
  unfold runQueryOn
  cases hs : c.state with
  | closed => exact absurd hs hc
  | created => cases outcome <;> simp
  | connected => cases outcome <;> simp
  | querying => cases outcome <;> simp

/-- C4: For every open Connection, including one whose last query
failed, calling close any number of times raises no error (close is a
total function) and the native handle is released exactly once across
all those calls. -/
theorem close_releases_exactly_once (c : Connection)
    (outcome : Option NativeFailure) (n : Nat)
    (hn : 0 < n) (hc : c.state ≠ .closed) :
    (closeTimes c n).2 = 1 ∧
    (closeTimes (runQueryOn c outcome).1 n).2 = 1 :=
  ⟨closeTimes_releases_once c n hn hc,
   closeTimes_releases_once (runQueryOn c outcome).1 n hn
     (runQueryOn_leaves_closable c outcome hc)⟩

/-- Witness for C4: a freshly connected sample connection whose query
failed with a cursor error, closed three times, releases its handle
exactly once either way. -/
theorem close_releases_exactly_once_witness :
    (closeTimes sampleConnection 3).2 = 1 ∧
    (closeTimes (runQueryOn sampleConnection (some .cursorFailure)).1 3).2 = 1 :=
  close_releases_exactly_once sampleConnection (some .cursorFailure) 3
    (by decide) (by decide)

theorem resolve_unchanged_of_short (x : List Char)
    (hp : x.any isPathSeparator = false)
    (hl : x.length ≤ maxNamedSourceLength) : resolve x = x := by
  have hl3 : ¬ maxNamedSourceLength < x.length := Nat.not_lt.mpr hl
  unfold resolve
  by_cases h1 : '=' ∈ x
  · simp [h1]
  · simp [h1, hp, hl3]

theorem resolve_idem (x : List Char) : resolve (resolve x) = resolve x := by
  by_cases h1 : '=' ∈ x
  · have hx : resolve x = x := by unfold resolve; simp [h1]
    rw [hx]
    exact hx
  · by_cases h2 : x.any isPathSeparator
    · have hx : resolve x = databaseKeyword ++ x ++ [';'] := by
        unfold resolve; simp [h1, h2]
      have hm : '=' ∈ databaseKeyword ++ x ++ [';'] :=
        List.mem_append.mpr (Or.inl (List.mem_append.mpr (Or.inl (by decide))))
      rw [hx]
      unfold resolve
      rw [if_pos hm]
    · by_cases h3 : maxNamedSourceLength < x.length
      · have hx : resolve x = dsnKeyword ++ x ++ [';'] := by
          unfold resolve; simp [h1, h2, h3]
        have hm : '=' ∈ dsnKeyword ++ x ++ [';'] :=
          List.mem_append.mpr (Or.inl (List.mem_append.mpr (Or.inl (by decide))))
        rw [hx]
        unfold resolve
        rw [if_pos hm]
      · have hx : resolve x = x :=
          resolve_unchanged_of_short x (by simpa using h2) (Nat.not_lt.mp h3)
        rw [hx]
        exact hx

/-- C5: DsnResolver.resolve — a pure, deterministic total function in
this model — is idempotent, and identifiers that contain no path
separator and do not exceed the driver's named-source-length limit are
returned unchanged. -/
theorem resolve_idempotent (x : List Char) :
    resolve (resolve x) = resolve x ∧
    (x.any isPathSeparator = false → x.length ≤ maxNamedSourceLength →
      resolve x = x) :=
  ⟨resolve_idem x, fun hp hl => resolve_unchanged_of_short x hp hl⟩

/-- Witness for C5 at a short named source: resolving twice equals
resolving once, and the identifier passes through unchanged. -/
theorem resolve_idempotent_witness :
    resolve (resolve "my_database".toList) = resolve "my_database".toList ∧
    resolve "my_database".toList = "my_database".toList :=
  ⟨(resolve_idempotent "my_database".toList).1,
   (resolve_idempotent "my_database".toList).2 (by decide) (by decide)⟩

/-- C6: QueryConfig construction fails fast whenever any supplied
value violates its validated range (batch_size > 0, timeouts > 0, size
limits > 0), and succeeds — producing a config object — exactly when
all values are inside their ranges. -/
theorem queryConfig_make_validates (b : Int) (ro : Bool)
    (ct qt mts mbs : Int) (iso : IsolationLevel) :
    (∃ cfg, QueryConfig.make b ro ct qt mts mbs iso = .ok cfg) ↔
      (0 < b ∧ 0 < ct ∧ 0 < qt ∧ 0 < mts ∧ 0 < mbs) := by
  unfold QueryConfig.make
  split_ifs with h1 h2 h3 h4 h5 <;> simp <;> omega

/-- Witness for C6 at the values of test_query_config_creation: all
ranges satisfied, construction succeeds. -/
theorem queryConfig_make_validates_witness :
    ∃ cfg, QueryConfig.make 2000 true 30 60 32768 16384 .readCommitted =
      .ok cfg :=
  (queryConfig_make_validates 2000 true 30 60 32768 16384 .readCommitted).mpr
    (by decide)

/-- C10: QueryConfig can be constructed from any subset of its keyword
fields; every supplied field reads back exactly the supplied value and
every omitted field takes its documented default. -/
theorem queryConfig_keywords_roundtrip (b : Option Int) (ro : Option Bool)
    (ct qt mts mbs : Option Int) (iso : Option IsolationLevel)
    (cfg : QueryConfig)
    (h : QueryConfig.fromKeywords b ro ct qt mts mbs iso = .ok cfg) :
    (∀ v, b = some v → cfg.batchSize = v) ∧
    (∀ v, ro = some v → cfg.readOnly = v) ∧
    (∀ v, ct = some v → cfg.connectionTimeout = v) ∧
    (∀ v, qt = some v → cfg.queryTimeout = v) ∧
    (∀ v, mts = some v → cfg.maxTextSize = v) ∧
    (∀ v, mbs = some v → cfg.maxBinarySize = v) ∧
    (∀ v, iso = some v → cfg.isolationLevel = v) ∧
    (b = none → cfg.batchSize = defaultBatchSize) ∧
    (ro = none → cfg.readOnly = defaultReadOnly) ∧
    (ct = none → cfg.connectionTimeout = defaultConnectionTimeout) ∧
    (qt = none → cfg.queryTimeout = defaultQueryTimeout) ∧
    (mts = none → cfg.maxTextSize = defaultMaxTextSize) ∧
    (mbs = none → cfg.maxBinarySize = defaultMaxBinarySize) ∧
    (iso = none → cfg.isolationLevel = defaultIsolationLevel) := by
  unfold QueryConfig.fromKeywords QueryConfig.make at h
  split_ifs at h
  simp only [Except.ok.injEq] at h
  subst h
  refine ⟨?_, ?_, ?_, ?_, ?_, ?_, ?_, ?_, ?_, ?_, ?_, ?_, ?_, ?_⟩ <;>
    first
      | (intro v hv; rw [hv]; rfl)
      | (intro hv; rw [hv]; rfl)

/-- Witness for C10 at the keyword subset of test_query_with_config:
supplied fields read back as supplied, omitted query_timeout reads back
as the default. -/
theorem queryConfig_keywords_roundtrip_witness :
    sampleKwConfig.batchSize = 500 ∧
    sampleKwConfig.connectionTimeout = 15 ∧
    sampleKwConfig.queryTimeout = defaultQueryTimeout :=
  ⟨(queryConfig_keywords_roundtrip (some 500) (some true) (some 15) none
      (some 16384) none none sampleKwConfig rfl).1 500 rfl,
   (queryConfig_keywords_roundtrip (some 500) (some true) (some 15) none
      (some 16384) none none sampleKwConfig rfl).2.2.1 15 rfl,
   (queryConfig_keywords_roundtrip (some 500) (some true) (some 15) none
      (some 16384) none none sampleKwConfig rfl).2.2.2.2.2.2.2.2.2.2.1 rfl⟩

/-- C8: the module exposes exactly three exception types for the error
taxonomy — PyConnectionError, PySQLError and PyArrowError — pairwise
distinct; the name corresponding to the taxonomy's QueryError kind is
the one and only kind's name not among them. -/
theorem exposed_exception_taxonomy (k : ErrorKind) :
    exposedExceptionNames.length = 3 ∧ exposedExceptionNames.Nodup ∧
    (pythonExceptionName k ∈ exposedExceptionNames ↔ k ≠ .queryError) := by
  refine ⟨by decide, by decide, ?_⟩
  cases k <;> decide

/-- Witness for C8 at the QueryError kind: its would-be Python name is
not an exposed attribute. -/
theorem exposed_exception_taxonomy_witness :
    pythonExceptionName .queryError ∈ exposedExceptionNames ↔
      ErrorKind.queryError ≠ .queryError :=
  (exposed_exception_taxonomy .queryError).2.2

/-- C9: query_arrow_c_data returns the capsule pair when
return_dataframe is omitted or false, and the host dataframe built from
the very same result when it is true. -/
theorem queryArrowCData_dispatch (schema : SchemaDescriptor)
    (rows : List Row) (rd : Option Bool) :
    ((rd = none ∨ rd = some false) →
      queryArrowCData schema rows rd = .capsules ⟨schema, rows⟩) ∧
    (rd = some true →
      queryArrowCData schema rows rd = .dataframe ⟨schema, rows⟩) := by
  constructor
  · rintro (h | h) <;> subst h <;> rfl
  · intro h
    subst h
    rfl

/-- Witness for C9 at the sample result: omitted keyword yields the
capsule pair, true yields the dataframe with the same schema and
rows. -/
theorem queryArrowCData_dispatch_witness :
    queryArrowCData sampleSchema sampleRows none =
      .capsules ⟨sampleSchema, sampleRows⟩ ∧
    queryArrowCData sampleSchema sampleRows (some true) =
      .dataframe ⟨sampleSchema, sampleRows⟩ :=
  ⟨(queryArrowCData_dispatch sampleSchema sampleRows none).1 (Or.inl rfl),
   (queryArrowCData_dispatch sampleSchema sampleRows (some true)).2 rfl⟩

theorem pipeStep_preserves (B depth : Nat) (s : PipeState) (e : PipeEvent)
    (hs : pipeInvariant B depth s) :
    pipeInvariant B depth (pipeStep depth s e) := by
  obtain ⟨hp, hq, he, hlen⟩ := hs
  cases e with
  | fetch =>
    simp only [pipeStep]
    split
    · exact ⟨hp, hq, he, hlen⟩
    · next g rest hpg =>
      split_ifs with hfull
      · refine ⟨?_, ?_, he, ?_⟩
        · intro g2 hg2
          exact hp g2 (by rw [hpg]; exact List.mem_cons_of_mem _ hg2)
        · intro g2 hg2
          rcases List.mem_append.mp hg2 with hin | hone
          · exact hq g2 hin
          · rw [List.mem_singleton] at hone
            subst hone
            exact hp g2 (by rw [hpg]; exact List.mem_cons_self _ _)
        · simpa using hfull
      · exact ⟨hp, hq, he, hlen⟩
  | encode =>
    simp only [pipeStep]
    split
    · next g q hque henc =>
      refine ⟨hp, ?_, ?_, ?_⟩
      · intro g2 hg2
        exact hq g2 (by rw [hque]; exact List.mem_cons_of_mem _ hg2)
      · intro g2 hg2
        simp only [Option.some.injEq] at hg2
        exact hg2 ▸ hq g (by rw [hque]; exact List.mem_cons_self _ _)
      · have hq1 : s.queue.length = q.length + 1 := by rw [hque]; rfl
        show q.length ≤ depth
        omega
    · exact ⟨hp, hq, he, hlen⟩
  | deliver =>
    simp only [pipeStep]
    split
    · next g henc =>
      exact ⟨hp, hq, fun g2 hg2 => Option.noConfusion hg2, hlen⟩
    · exact ⟨hp, hq, he, hlen⟩

theorem pipeRun_preserves (B depth : Nat) (s : PipeState)
    (events : List PipeEvent) (hs : pipeInvariant B depth s) :
    pipeInvariant B depth (pipeRun depth s events) := by
  induction events generalizing s with
  | nil => exact hs
  | cons e es ih => exact ih _ (pipeStep_preserves B depth s e hs)

theorem sum_length_le (B : Nat) (l : List (List Row))
    (h : ∀ g ∈ l, g.length ≤ B) :
    (l.map List.length).sum ≤ B * l.length := by
  induction l with
  | nil => simp
  | cons g gs ih =>
    simp only [List.map_cons, List.sum_cons, List.length_cons]
    have h1 := h g (List.mem_cons_self g gs)
    have h2 := ih (fun g2 hg2 => h g2 (List.mem_cons_of_mem _ hg2))
    calc g.length + (gs.map List.length).sum ≤ B + B * gs.length :=
          Nat.add_le_add h1 h2
      _ = B * (gs.length + 1) := by ring

theorem liveRows_le_of_invariant (B depth : Nat) (s : PipeState)
    (hs : pipeInvariant B depth s) : liveRows s ≤ B * (depth + 1) := by
  obtain ⟨hp, hq, he, hlen⟩ := hs
  unfold liveRows
  have hqsum : (s.queue.map List.length).sum ≤ B * depth :=
    le_trans (sum_length_le B s.queue hq)
      (Nat.mul_le_mul_left B hlen)
  cases henc : s.encoding with
  | none =>
    have hmono : B * depth ≤ B * (depth + 1) := Nat.mul_le_mul_left B (by omega)
    show (s.queue.map List.length).sum + 0 ≤ B * (depth + 1)
    omega
  | some g =>
    have hg := he g henc
    have hsplit : B * (depth + 1) = B * depth + B := by ring
    show (s.queue.map List.length).sum + g.length ≤ B * (depth + 1)
    omega

/-- C7: during a streamed query, however the two stages interleave,
the rows held inside the pipeline (bounded queue plus the group under
encoding) never exceed batch_size times (queue depth + 1), independent
of the total number of rows in the result set. -/
theorem pipeline_memory_bounded (config : QueryConfig) (queueDepth : Nat)
    (rows : List Row) (events : List PipeEvent)
    (hb : 0 < config.batchSize) :
    liveRows (pipeRun queueDepth (pipeInit config.batchSize.toNat rows) events) ≤
      config.batchSize.toNat * (queueDepth + 1) := by
  have hbn : 0 < config.batchSize.toNat := by omega
  have hinit : pipeInvariant config.batchSize.toNat queueDepth
      (pipeInit config.batchSize.toNat rows) := by
    refine ⟨chunkRows_length_le _ hbn rows, ?_, ?_, ?_⟩
    · intro g hg
      simp [pipeInit] at hg
    · intro g hg
      simp [pipeInit] at hg
    · simp [pipeInit]
  exact liveRows_le_of_invariant _ _ _
    (pipeRun_preserves _ _ _ events hinit)

/-- Witness for C7: a concrete interleaving over the five-row sample
with queue depth 2 stays within 2 × (2 + 1) rows. -/
theorem pipeline_memory_bounded_witness :
    liveRows (pipeRun 2 (pipeInit sampleConfig.batchSize.toNat sampleRows)
        [.fetch, .encode, .fetch, .deliver, .fetch, .encode]) ≤
      sampleConfig.batchSize.toNat * (2 + 1) :=
  pipeline_memory_bounded sampleConfig 2 sampleRows
    [.fetch, .encode, .fetch, .deliver, .fetch, .encode] (by decide)

end Ibarrow
